import Mathlib

/-!
Verification of the company-comparables Azure Function repository.

This file shallowly embeds the web-search orchestration and heuristic
text-extraction/scoring pipeline of the repository and proves or refutes
the stated properties about it.

Conventions of the embedding:
* JavaScript strings are Lean `String`; `null`/`undefined` string fields are
  `Option String`, with JS truthiness (empty string is falsy) made explicit.
* JS numbers appearing in the scoring code are embedded as `Rat`; every value
  used in the theorems is exactly representable in binary floating point and
  the arithmetic performed on it is exact, so `Rat` agrees with IEEE doubles
  on all inputs considered here.
* `Date.now()` timestamps are `Int` parameters threaded explicitly.
* Network effects (the OAuth token endpoint and the SearXNG backend) are
  modelled as oracle parameters of type `Except String _`; an `Except.error`
  models the JS code path in which `fetch`/parsing raised, with the message
  the embedded code observes.  Returned tuples carry explicit counters of
  token fetches and search fetches so that cache claims can be stated.
-/

namespace CompanyComparables

/-! ## Generic JavaScript string helpers -/

/-- JS `String.prototype.toLowerCase` restricted to the ASCII mapping used by
`Char.toLower`; all concrete inputs in this development are ASCII or already
lowercase. -/
def jsToLower (s : String) : String :=
  String.mk (s.toList.map Char.toLower)

/-- Does `needle` occur as a contiguous sublist of `l`? -/
def isInfixList (needle : List Char) : List Char → Bool
  | [] => needle.isEmpty
  | c :: cs => needle.isPrefixOf (c :: cs) || isInfixList needle cs

/-- JS `Array.prototype.join(sep)`. -/
def joinSep (sep : String) : List String → String
  | [] => ""
  | [x] => x
  | x :: xs => x ++ sep ++ joinSep sep xs

/-- JS `haystack.includes(needle)` : substring containment. -/
def jsIncludes (haystack needle : String) : Bool :=
  isInfixList needle.toList haystack.toList

/-- Value of a nullable string field, as read by JS code that has already
checked truthiness (missing reads as the empty string). -/
def strVal (o : Option String) : String := o.getD ""

/-- JS truthiness of a nullable string: `null`/`undefined` and `""` are falsy. -/
def strTruthy (o : Option String) : Bool := strVal o != ""

/-- JS `a || b` for nullable strings: keep `a` when truthy, else use `b`. -/
def jsOrStr (o : Option String) (d : String) : String :=
  if strTruthy o then strVal o else d

/-- JS `a || null` for nullable strings: falsy collapses to `null`. -/
def jsOrNull (o : Option String) : Option String :=
  if strTruthy o then some (strVal o) else none

/-! ## Similarity scoring (src/unnamed/part_001, calculateSimilarityScore)

The profile fields consulted by the scorer.  `confidence` is a JS number or
absent; the scorer reads it as `comparable.confidence || 0.5`. -/

structure Profile where
  sector : Option String
  country : Option String
  size_category : Option String
  confidence : Option Rat
deriving DecidableEq, Repr

/-- The `similarGroups` table of `areSimilarSectors`. -/
def similarGroups : List (List String) :=
  [["Technology", "Consulting", "IT Services"],
   ["Finance", "Banking", "Insurance"],
   ["Healthcare", "Pharmaceutical", "Biotechnology"]]

/-- `areSimilarSectors(sector1, sector2)` from part_001. -/
def areSimilarSectors (s1 s2 : String) : Bool :=
  similarGroups.any fun g => g.contains s1 && g.contains s2

/-- The `regions` table of `areSimilarRegions`. -/
def regionsTable : List (String × List String) :=
  [("Europe", ["France", "Germany", "United Kingdom", "Spain", "Italy"]),
   ("North America", ["United States", "Canada"]),
   ("Asia", ["China", "Japan", "India", "Singapore"])]

/-- `areSimilarRegions(country1, country2)` from part_001. -/
def areSimilarRegions (c1 c2 : String) : Bool :=
  regionsTable.any fun p => p.2.contains c1 && p.2.contains c2

/-- The `sizeOrder` scale of `areSimilarSizes`. -/
def sizeOrder : List String :=
  ["micro", "small", "medium", "large", "enterprise"]

/-- `areSimilarSizes(size1, size2)` from part_001: both sizes are on the scale
and their indices differ by at most 1 (the JS `indexOf` minus-one checks are
the `Option` matches). -/
def areSimilarSizes (a b : String) : Bool :=
  match sizeOrder.indexOf? a, sizeOrder.indexOf? b with
  | some i, some j => decide (i ≤ j + 1 ∧ j ≤ i + 1)
  | _, _ => false

/-- Sector factor of `calculateSimilarityScore`: points and whether the factor
was comparable (the `factors++`). -/
def sectorScore (r c : Profile) : Rat × Nat :=
  if strTruthy r.sector && strTruthy c.sector then
    (if jsToLower (strVal r.sector) = jsToLower (strVal c.sector) then 40
     else if areSimilarSectors (strVal r.sector) (strVal c.sector) then 25
     else 0, 1)
  else (0, 0)

/-- Country factor of `calculateSimilarityScore`. -/
def countryScore (r c : Profile) : Rat × Nat :=
  if strTruthy r.country && strTruthy c.country then
    (if strVal r.country = strVal c.country then 30
     else if areSimilarRegions (strVal r.country) (strVal c.country) then 15
     else 0, 1)
  else (0, 0)

/-- Size factor of `calculateSimilarityScore`. -/
def sizeScore (r c : Profile) : Rat × Nat :=
  if strTruthy r.size_category && strTruthy c.size_category then
    (if strVal r.size_category = strVal c.size_category then 20
     else if areSimilarSizes (strVal r.size_category) (strVal c.size_category) then 10
     else 0, 1)
  else (0, 0)

/-- JS `comparable.confidence || 0.5`: absent or `0` (falsy) reads as `0.5`. -/
def confVal (o : Option Rat) : Rat :=
  match o with
  | none => 1/2
  | some c => if c = 0 then 1/2 else c

/-- `calculateSimilarityScore(reference, comparable)` from part_001.
With fewer than 2 comparable categorical factors the raw score is floored at
40 via `Math.max` and returned unrounded; otherwise the result is
`Math.min(Math.round(score), 100)`. -/
def calculateSimilarityScore (r c : Profile) : Rat :=
  let s1 := sectorScore r c
  let s2 := countryScore r c
  let s3 := sizeScore r c
  let score : Rat := s1.1 + s2.1 + s3.1 + confVal c.confidence * 10
  let factors := s1.2 + s2.2 + s3.2
  if factors < 2 then max score 40
  else ((min (round score) 100 : Int) : Rat)

/-! ## Focus-mode detection (src/src/services/searchService.js, detectOptimalFocus) -/

/-- Keyword list for `financialSearch` in `detectOptimalFocus`. -/
def finKws : List String :=
  ["finance", "financial", "revenue", "chiffre d\x27affaires", "profit", "valuation"]

/-- Keyword list for `marketAnalysis` in `detectOptimalFocus`. -/
def mktKws : List String :=
  ["market", "marché", "sector", "secteur", "industry", "industrie"]

/-- Keyword list for `competitorAnalysis` in `detectOptimalFocus`. -/
def cmpKws : List String :=
  ["competitor", "concurrence", "competitive", "comparison", "comparable"]

/-- The keyword-hit score of one mode: the JS
`keywords.reduce((acc, k) => acc + (queryLower.includes(k) ? 1 : 0), 0)`. -/
def detectScore (queryLower : String) (kws : List String) : Nat :=
  kws.foldl (fun acc k => acc + (if jsIncludes queryLower k then 1 else 0)) 0

/-- The `patterns` iteration order of `detectOptimalFocus`. -/
def detectPatterns : List (String × List String) :=
  [("financialSearch", finKws), ("marketAnalysis", mktKws),
   ("competitorAnalysis", cmpKws)]

/-- `detectOptimalFocus(query)`: best match starts at (`companyResearch`, 0)
and is replaced only on a strictly greater score. -/
def detectOptimalFocus (query : String) : String :=
  let queryLower := jsToLower query
  (detectPatterns.foldl
    (fun best p =>
      let score := detectScore queryLower p.2
      if score > best.2 then (p.1, score) else best)
    ("companyResearch", 0)).1

/-! ## Sector extraction (src/unnamed/part_001, extractSector) -/

/-- The `sectorPatterns` taxonomy of part_001 in declaration order. -/
def sectorPatterns : List (String × List String) :=
  [("Technology", ["technology", "tech", "it services", "software", "digital", "consulting"]),
   ("Finance", ["finance", "financial", "bank", "investment", "insurance"]),
   ("Healthcare", ["healthcare", "health", "medical", "pharmaceutical"]),
   ("Manufacturing", ["manufacturing", "production", "industrial"]),
   ("Retail", ["retail", "commerce", "consumer"]),
   ("Energy", ["energy", "oil", "gas", "renewable"]),
   ("Consulting", ["consulting", "advisory", "professional services"])]

/-- The JS `keywords.filter(k => content.includes(k)).length`. -/
def hitCount (content : String) (kws : List String) : Nat :=
  (kws.filter (fun k => jsIncludes content k)).length

/-- The `for ... of Object.entries(sectorPatterns)` loop with its early
`return sector` on `matches >= 1`. -/
def firstSectorHit (content : String) : List (String × List String) → Option String
  | [] => none
  | p :: rest =>
    if 1 ≤ hitCount content p.2 then some p.1 else firstSectorHit content rest

/-- `extractSector(content)` from part_001: first taxonomy group with at least
one keyword hit, defaulting to Technology. -/
def extractSector (content : String) : String :=
  (firstSectorHit content sectorPatterns).getD "Technology"

/-! ## Focus modes and applySearchFocus (src/src/services/searchService.js) -/

structure FocusMode where
  engines : String
  categories : String
  keywords : List String
  description : String
deriving DecidableEq, Repr

/-- The `this.focusModes` registry built in the `SearchService` constructor. -/
def focusModes : List (String × FocusMode) :=
  [("financialSearch",
    { engines := "google,duckduckgo,yahoo", categories := "general",
      keywords := ["finance", "financial", "revenue", "earnings", "profit", "valuation"],
      description := "Recherche optimisée pour informations financières" }),
   ("companyResearch",
    { engines := "google,duckduckgo", categories := "general",
      keywords := ["company", "entreprise", "société", "business", "profile"],
      description := "Profil et informations d\x27entreprise" }),
   ("marketAnalysis",
    { engines := "google,yahoo", categories := "general",
      keywords := ["market", "marché", "sector", "secteur", "industry", "industrie"],
      description := "Analyse de marché et secteur" }),
   ("competitorAnalysis",
    { engines := "google,duckduckgo", categories := "general",
      keywords := ["competitor", "concurrence", "competitive", "comparison", "comparaison"],
      description := "Analyse concurrentielle et comparaisons" })]

/-- JS `this.focusModes[mode]` : registry lookup. -/
def focusModesLookup (m : String) : Option FocusMode :=
  (focusModes.find? fun p => p.1 = m).map (·.2)

/-- JS expression: focusModes[mode]?.description, defaulting to Mode general. -/
def focusDescOf (m : String) : String :=
  match focusModesLookup m with
  | some f => if f.description = "" then "Mode général" else f.description
  | none => "Mode général"

/-- The search parameter object (query plus spread options) that
`applySearchFocus` rewrites; option fields are nullable. -/
structure Params where
  query : String
  language : Option String
  page : Option Int
  engines : Option String
  categories : Option String
deriving DecidableEq, Repr

/-- The caller-supplied `options` object (no query). -/
structure Opts where
  language : Option String
  page : Option Int
  engines : Option String
  categories : Option String
deriving DecidableEq, Repr

/-- The construction of searchParams from the query and the options spread. -/
def paramsOf (query : String) (o : Opts) : Params :=
  { query := query, language := o.language, page := o.page,
    engines := o.engines, categories := o.categories }

/-- `applySearchFocus(params, focusMode)`: unknown modes leave the params
untouched; registered modes overwrite engines/categories and append the first
2 boost keywords (joined by a space) to the query. -/
def applySearchFocus (p : Params) (mode : String) : Params :=
  match focusModesLookup mode with
  | none => p
  | some f =>
    let p' := { p with engines := some f.engines, categories := some f.categories }
    if 0 < f.keywords.length then
      { p' with query := p'.query ++ " " ++ joinSep " " (f.keywords.take 2) }
    else p'

/-! ## The SearchService state (token cache, result cache, statistics) -/

/-- A formatted search-result item as produced by `formatSearchResults`. -/
structure Item where
  title : String
  url : String
  content : String
  engine : String
  score : Rat
  publishedDate : Option String
  category : String
deriving DecidableEq, Repr

/-- A raw backend result item; all fields other than `url` are nullable and
defaulted during formatting. -/
structure RawItem where
  title : Option String
  url : String
  content : Option String
  snippet : Option String
  engine : Option String
  score : Option Rat
  publishedDate : Option String
  category : Option String
deriving DecidableEq, Repr

/-- The parsed backend JSON body, as far as `formatSearchResults` reads it. -/
structure RawData where
  results : List RawItem
  engines : List String
  suggestions : List String
deriving DecidableEq, Repr

/-- The payload `searchWeb` returns (and caches).  The not-configured early
return reuses the same shape with `success := false`, `configured := some
false`.  `infoTimestamp` stands for `searchInfo.timestamp`. -/
structure SWPayload where
  query : String
  totalResults : Nat
  success : Bool
  results : List Item
  suggestions : List String
  infoTimestamp : Option Int
  focusMode : Option String
  focusDescription : Option String
  optimizedQuery : Option String
  originalQuery : Option String
  error : Option String
  configured : Option Bool
deriving DecidableEq, Repr

/-- One entry of the process-wide `stats.errors` log: (message, query). -/
abbrev ErrEntry := String × String

/-- The mutable fields of a `SearchService` instance. -/
structure SearchState where
  searxngUrl : Option String
  clientId : Option String
  clientSecret : Option String
  tenantId : Option String
  tokenUrl : Option String
  accessToken : Option String
  tokenExpiry : Option Int
  cache : List (String × Int × SWPayload)
  totalRequests : Nat
  successfulRequests : Nat
  cachedRequests : Nat
  errors : List ErrEntry
  configurationError : Option String
deriving DecidableEq, Repr

/-- The `SearchService` constructor: reads the five environment settings and
records a configuration error once if any is falsy (absent or empty). -/
def mkSearchService (u cid cs tid tu : Option String) : SearchState :=
  { searxngUrl := u, clientId := cid, clientSecret := cs, tenantId := tid,
    tokenUrl := tu, accessToken := none, tokenExpiry := none, cache := [],
    totalRequests := 0, successfulRequests := 0, cachedRequests := 0,
    errors := [],
    configurationError :=
      if !strTruthy u || !strTruthy cid || !strTruthy cs || !strTruthy tid
          || !strTruthy tu then
        some "Variables d\x27environnement Azure AD manquantes"
      else none }

/-- The guard `this.accessToken && this.tokenExpiry && Date.now() <
this.tokenExpiry` (JS truthiness: empty token and zero expiry are falsy). -/
def cachedTokenValid (now : Int) (st : SearchState) : Bool :=
  match st.accessToken, st.tokenExpiry with
  | some tok, some e => tok != "" && e != 0 && decide (now < e)
  | _, _ => false

/-- `getAccessToken()`.  `tokenResp` is the token-endpoint oracle: `.ok
(access_token, expires_in)` for a 2xx exchange, `.error msg` when the fetch
raised or returned non-2xx (msg is the inner error message, which the catch
block wraps).  Returns (result, state, number of token requests made). -/
def getAccessToken (now : Int) (tokenResp : Except String (String × Int))
    (st : SearchState) : Except String String × SearchState × Nat :=
  if cachedTokenValid now st then
    (.ok (strVal st.accessToken), st, 0)
  else
    match tokenResp with
    | .error msg => (.error ("Erreur obtention token Azure AD: " ++ msg), st, 1)
    | .ok (tok, expiresIn) =>
      (.ok tok,
       { st with accessToken := some tok,
                 tokenExpiry := some (now + expiresIn * 1000 - 60000) }, 1)

/-- One raw result mapped by `formatSearchResults` (all the JS `||`
defaults). -/
def mapRawItem (r : RawItem) : Item :=
  { title := jsOrStr r.title "Sans titre",
    url := r.url,
    content := jsOrStr r.content (jsOrStr r.snippet ""),
    engine := jsOrStr r.engine "unknown",
    score := r.score.getD 0,
    publishedDate := jsOrNull r.publishedDate,
    category := jsOrStr r.category "general" }

/-- `formatSearchResults(rawData, originalQuery)`; `now` stands for the
`new Date().toISOString()` taken while formatting. -/
def formatSearchResults (raw : RawData) (originalQuery : String) (now : Int) :
    SWPayload :=
  { query := originalQuery,
    totalResults := raw.results.length,
    success := true,
    results := raw.results.map mapRawItem,
    suggestions := raw.suggestions,
    infoTimestamp := some now,
    focusMode := none, focusDescription := none,
    optimizedQuery := none, originalQuery := none,
    error := none, configured := none }

/-- `if (!focusMode) focusMode = this.detectOptimalFocus(query)` (the empty
string is falsy too). -/
def resolveMode (query : String) (fm : Option String) : String :=
  match fm with
  | none => detectOptimalFocus query
  | some m => if m = "" then detectOptimalFocus query else m

/-- Stands for `JSON.stringify(optimizedParams)`: a deterministic
serialization of the rewritten parameter object (the exact JSON text is
irrelevant to every claim; only determinism in the params is used). -/
def serializeParams (p : Params) : String :=
  "q=" ++ p.query ++ ";l=" ++ strVal p.language ++ ";p=" ++
    (match p.page with | none => "" | some n => toString n) ++
    ";e=" ++ strVal p.engines ++ ";c=" ++ strVal p.categories

/-- The cache key computed by `searchWeb` for a given call. -/
def swKey (query : String) (o : Opts) (fm : Option String) : String :=
  let mode := resolveMode query fm
  let optimized := applySearchFocus (paramsOf query o) mode
  "web_" ++ optimized.query ++ "_" ++ serializeParams optimized ++ "_" ++ mode

/-- `this.cache.get(key)` followed by the freshness test
`Date.now() - cached.timestamp < this.cacheTimeout` (5 minutes). -/
def freshLookup (cache : List (String × Int × SWPayload)) (key : String)
    (now : Int) : Option SWPayload :=
  match cache.find? (fun e => e.1 = key) with
  | some (_, ts, d) => if now - ts < 300000 then some d else none
  | none => none

/-- `this.cache.set(key, entry)` : overwrite the key. -/
def cacheSet (cache : List (String × Int × SWPayload)) (key : String)
    (now : Int) (d : SWPayload) : List (String × Int × SWPayload) :=
  (key, now, d) :: cache.filter (fun e => ¬ e.1 = key)

/-- `this.stats.errors.push(entry)`. -/
def pushErr (st : SearchState) (e q : String) : SearchState :=
  { st with errors := st.errors ++ [(e, q)] }

/-- The not-configured early return of `searchWeb`. -/
def notConfiguredPayload (query ce : String) : SWPayload :=
  { query := query, totalResults := 0, success := false, results := [],
    suggestions := [], infoTimestamp := none, focusMode := none,
    focusDescription := none, optimizedQuery := none, originalQuery := none,
    error := some ("Service de recherche web non configuré - " ++ ce),
    configured := some false }

/-- `searchWeb(query, options, focusMode)`.

`tokenResp` and `searchResp` are the network oracles for this call: the
token endpoint as in `getAccessToken`, and the SearXNG GET whose `.ok` is
the parsed (possibly repaired) JSON body and whose `.error` covers the
non-2xx, timeout, and unreparable-JSON throws, carrying the message the JS
code would raise.  Returns (result, state, token fetches, search fetches):
an `Except.error` result is a JS throw to the caller. -/
def searchWeb (now : Int) (query : String) (options : Opts)
    (fm : Option String) (tokenResp : Except String (String × Int))
    (searchResp : Except String RawData) (st : SearchState) :
    Except String SWPayload × SearchState × Nat × Nat :=
  let st0 := { st with totalRequests := st.totalRequests + 1 }
  match st0.configurationError with
  | some ce =>
    (.ok (notConfiguredPayload query ce),
     pushErr st0 "Configuration Azure AD incorrecte" query, 0, 0)
  | none =>
    let mode := resolveMode query fm
    let optimized := applySearchFocus (paramsOf query options) mode
    let key := "web_" ++ optimized.query ++ "_" ++ serializeParams optimized
                 ++ "_" ++ mode
    match freshLookup st0.cache key now with
    | some data =>
      (.ok { data with focusMode := some mode,
                       focusDescription := some (focusDescOf mode) },
       { st0 with cachedRequests := st0.cachedRequests + 1 }, 0, 0)
    | none =>
      match getAccessToken now tokenResp st0 with
      | (.error e, st1, tf) =>
        -- the token throw is caught only by the outer catch, pushed once
        (.error e, pushErr st1 e query, tf, 0)
      | (.ok _tok, st1, tf) =>
        match searchResp with
        | .error e =>
          -- the inner fetch catch pushes, rethrows, and the outer catch
          -- pushes the same error again
          (.error e, pushErr (pushErr st1 e query) e query, tf, 1)
        | .ok raw =>
          let f0 := formatSearchResults raw query now
          let f := { f0 with
                       focusMode := some mode,
                       focusDescription := some (focusDescOf mode),
                       optimizedQuery := some optimized.query,
                       originalQuery := some query }
          (.ok f,
           { st1 with cache := cacheSet st1.cache key now f,
                      successfulRequests := st1.successfulRequests + 1 },
           tf, 1)

/-! ## searchCompanyInfo and the searchCompany request boundary
(src/src/services/searchService.js lines 268-336 and
src/src/functions/searchCompany.js lines 46-52)

`searchCompanyInfo` issues three `searchWeb` calls for generated queries and
catches every throw at its top level, returning a `success:false` object.
The per-call behaviour of `searchWeb` is abstracted into the list of
outcomes the three sequential calls would produce; an `.ok` outcome always
carries a results array (truthy in JS), so it always appends an entry. -/

structure SWOut where
  results : List Item
deriving DecidableEq, Repr

/-- What `searchCompany.js` reads off the `searchCompanyInfo` return value. -/
structure CompanyInfoRes where
  success : Bool
  error : Option String
  numSearchResults : Nat
deriving DecidableEq, Repr

/-- The query loop of `searchCompanyInfo` with its enclosing try/catch: the
first throw discards all accumulated entries and yields the catch object. -/
def searchCompanyInfoGo : List (Except String SWOut) → Nat → CompanyInfoRes
  | [], n => { success := decide (0 < n), error := none, numSearchResults := n }
  | .error e :: _, _ =>
    { success := false,
      error := some ("Erreur recherche entreprise: " ++ e),
      numSearchResults := 0 }
  | .ok _ :: rest, n => searchCompanyInfoGo rest (n + 1)

/-- `searchCompanyInfo(companyName, options)` as observed by the handler. -/
def searchCompanyInfoModel (configurationError : Option String)
    (outcomes : List (Except String SWOut)) : CompanyInfoRes :=
  match configurationError with
  | some ce =>
    { success := false,
      error := some ("Service de recherche web non configuré - " ++ ce),
      numSearchResults := 0 }
  | none => searchCompanyInfoGo outcomes 0

/-- The `searchCompany` handler branch at line 46: a non-success or empty
`searchResults` yields the 404 response (with suggestions); 200 stands for
the rest of the handler (profile analysis), not reached in the failure
scenarios considered here. -/
def searchCompanyRoute (res : CompanyInfoRes) : Nat :=
  if !res.success || res.numSearchResults == 0 then 404 else 200

/-! ## A small backtracking regex evaluator

`extractEmployeeCount` and `extractRevenue` in part_001 run case-insensitive
global regexes over the content via `String.prototype.match`.  The evaluator
below implements exactly the JS backtracking semantics needed by those four
patterns: character classes, case-insensitive literals, concatenation,
ordered alternation, greedy option, and greedy/lazy bounded repetition (a
star can never iterate a non-empty body more than `length input` times, so
instantiating the bound with the input length is semantically the JS `*`). -/

inductive Rx where
  | cls (p : Char → Bool)
  | lit (cs : List Char)
  | seq (a b : Rx)
  | alt (a b : Rx)
  | opt (r : Rx)
  | rep (n : Nat) (lazy : Bool) (r : Rx)

/-- Case-insensitive prefix test (the `i` flag). -/
def isPrefixCI : List Char → List Char → Bool
  | [], _ => true
  | _ :: _, [] => false
  | p :: ps, c :: cs => (p.toLower == c.toLower) && isPrefixCI ps cs

/-- All lengths of matches of `rx` at the head of `s`, in JS backtracking
preference order (first element is the match JS commits to).  Structural in
the fuel; every recursive call strictly decreases `sizeOf rx`, so
`sizeOf rx + 1` fuel always suffices. -/
def matchLensF : Nat → Rx → List Char → List Nat
  | 0, _, _ => []
  | fuel + 1, rx, s =>
    match rx with
    | .cls p =>
      match s with
      | [] => []
      | c :: _ => if p c then [1] else []
    | .lit cs => if isPrefixCI cs s then [cs.length] else []
    | .seq a b =>
      (matchLensF fuel a s).flatMap fun l =>
        (matchLensF fuel b (s.drop l)).map (l + ·)
    | .alt a b => matchLensF fuel a s ++ matchLensF fuel b s
    | .opt r => matchLensF fuel r s ++ [0]
    | .rep 0 _ _ => [0]
    | .rep (n + 1) lz r =>
      let conts := ((matchLensF fuel r s).filter (fun l => l != 0)).flatMap
        fun l => (matchLensF fuel (.rep n lz r) (s.drop l)).map (l + ·)
      if lz then 0 :: conts else conts ++ [0]

/-- Structural size of a pattern; every recursive call of `matchLensF`
strictly decreases it, so it bounds the recursion depth. -/
def Rx.size : Rx → Nat
  | .cls _ => 1
  | .lit _ => 1
  | .seq a b => a.size + b.size + 1
  | .alt a b => a.size + b.size + 1
  | .opt r => r.size + 1
  | .rep n _ r => n + r.size + 1

/-- Match lengths of `rx` at the head of `s`. -/
def matchLens (rx : Rx) (s : List Char) : List Nat :=
  matchLensF (rx.size + 1) rx s

/-- Leftmost match of `rx` in `s` at a position of at least `i`:
(start, length). -/
def firstMatchFrom (rx : Rx) (s : List Char) (i : Nat) : Option (Nat × Nat) :=
  (List.range (s.length + 1 - i)).findSome? fun d =>
    match matchLens rx (s.drop (i + d)) with
    | [] => none
    | len :: _ => some (i + d, len)

/-- The iteration of a `g`-flagged regex: collect successive leftmost
matches, resuming after each one (advancing one position past an empty
match, as JS does). -/
def matchAllAux (rx : Rx) (s : List Char) : Nat → Nat → List (List Char)
  | 0, _ => []
  | fuel + 1, i =>
    match firstMatchFrom rx s i with
    | none => []
    | some (j, len) =>
      (s.drop j).take len :: matchAllAux rx s fuel (j + max len 1)

/-- JS `content.match(regex)` for a regex with the `g` flag: `null` when there
is no match, otherwise the array of full-match strings (capture groups are
NOT included — the root cause of the bug verified below). -/
def jsMatchG (rx : Rx) (s : String) : Option (List String) :=
  let ms := matchAllAux rx s.toList (s.length + 1) 0
  if ms.isEmpty then none else some (ms.map fun l => String.mk l)

/-- JS `parseInt` on the strings arising here: strip leading whitespace, read
an optional sign and leading decimal digits; `none` is `NaN`. -/
def digitsVal (cs : List Char) : Option Nat :=
  let ds := cs.takeWhile Char.isDigit
  if ds.isEmpty then none
  else some (ds.foldl (fun a c => a * 10 + (c.toNat - 48)) 0)

/-- JS whitespace for `\s` and `parseInt` trimming (ASCII part). -/
def isJsWs (c : Char) : Bool :=
  c == ' ' || c == '\t' || c == '\n' || c == '\r' || c == '\x0b' || c == '\x0c'

def jsParseInt (s : String) : Option Int :=
  match s.toList.dropWhile isJsWs with
  | '-' :: rest => (digitsVal rest).map fun n => -(n : Int)
  | '+' :: rest => (digitsVal rest).map fun n => (n : Int)
  | cs => (digitsVal cs).map fun n => (n : Int)

/-- JS `str.replace(/,/g, "")`. -/
def removeCommas (s : String) : String :=
  String.mk (s.toList.filter fun c => c != ',')

/-! The four regex literals of part_001 (`n` instantiates each `*`). -/

def rxDigit : Rx := .cls Char.isDigit

/-- Greedy `\d{1,3}`: try three digits, then two, then one. -/
def rxD13 : Rx :=
  .alt (.seq rxDigit (.seq rxDigit rxDigit)) (.alt (.seq rxDigit rxDigit) rxDigit)

/-- `(?:,\d{3})`. -/
def rxCommaGroup : Rx := .seq (.lit [',']) (.seq rxDigit (.seq rxDigit rxDigit))

/-- Greedy `\s*`. -/
def rxWsStar (n : Nat) : Rx := .rep n false (.cls isJsWs)

/-- The JS dot (anything but a line terminator). -/
def rxDot : Rx :=
  .cls fun c => !(c == '\n' || c == '\r' || c.toNat == 0x2028 || c.toNat == 0x2029)

/-- `(?:employees|employés|people|staff)`. -/
def rxEmpWords : Rx :=
  .alt (.lit "employees".toList)
    (.alt (.lit "employés".toList) (.alt (.lit "people".toList) (.lit "staff".toList)))

/-- `/(\d{1,3}(?:,\d{3})*)\s*(?:employees|employés|people|staff)/gi` (the
capture parentheses are irrelevant under the `g` flag). -/
def empPat1 (n : Nat) : Rx :=
  .seq rxD13 (.seq (.rep n false rxCommaGroup) (.seq (rxWsStar n) rxEmpWords))

/-- `/(\d{1,3})k?\s*(?:employees|employés|people|staff)/gi`. -/
def empPat2 (n : Nat) : Rx :=
  .seq rxD13 (.seq (.opt (.lit ['k'])) (.seq (rxWsStar n) rxEmpWords))

/-- `(?:million|billion)`. -/
def rxMB : Rx := .alt (.lit "million".toList) (.lit "billion".toList)

/-- `/revenue.*?€(\d{1,3}(?:,\d{3})*)\s*(?:million|billion)/gi`. -/
def revPat1 (n : Nat) : Rx :=
  .seq (.lit "revenue".toList)
    (.seq (.rep n true rxDot)
      (.seq (.lit ['€'])
        (.seq rxD13 (.seq (.rep n false rxCommaGroup) (.seq (rxWsStar n) rxMB)))))

/-- `/€(\d{1,3}(?:,\d{3})*)\s*(?:million|billion)/gi`. -/
def revPat2 (n : Nat) : Rx :=
  .seq (.lit ['€'])
    (.seq rxD13 (.seq (.rep n false rxCommaGroup) (.seq (rxWsStar n) rxMB)))

/-! ## extractEmployeeCount and extractRevenue (part_001 lines 551-591)

Both call `content.match(pattern)` with a `g`-flagged regex and then read
`match[1]` — under the `g` flag that is the SECOND full match, not the
capture group; when the pattern matched exactly once, `match[1]` is
`undefined` and `match[1].replace(...)` throws a `TypeError`.  The embedding
returns `Except.error` for that throw. -/

/-- The body of one iteration of the pattern loop in `extractEmployeeCount`:
`.ok (some n)` is `return number`, `.ok none` means fall through to the next
pattern, `.error` is the JS `TypeError` throw. -/
def tryEmpPattern (rx : Rx) (content : String) : Except String (Option Int) :=
  match jsMatchG rx content with
  | none => .ok none
  | some ms =>
    match ms.get? 1 with
    | none =>
      .error "TypeError: Cannot read properties of undefined (reading replace)"
    | some m1 =>
      match jsParseInt (removeCommas m1) with
      | none => .ok none   -- NaN: the range check fails, loop continues
      | some n0 =>
        let n := if jsIncludes (jsToLower (ms.headD "")) "k" then n0 * 1000 else n0
        if 1 ≤ n ∧ n ≤ 5000000 then .ok (some n) else .ok none

/-- `extractEmployeeCount(content)` from part_001. -/
def extractEmployeeCount (content : String) : Except String (Option Int) :=
  match tryEmpPattern (empPat1 content.length) content with
  | .error e => .error e
  | .ok (some n) => .ok (some n)
  | .ok none =>
    match tryEmpPattern (empPat2 content.length) content with
    | .error e => .error e
    | .ok r => .ok r

/-- String interpolation of a JS number that may be `NaN`. -/
def jsNumToString (o : Option Int) : String :=
  match o with
  | none => "NaN"
  | some n => toString n

/-- One iteration of the pattern loop in `extractRevenue`; note the code has
no NaN or range validation — it returns the interpolated amount directly. -/
def tryRevPattern (rx : Rx) (content : String) : Except String (Option String) :=
  match jsMatchG rx content with
  | none => .ok none
  | some ms =>
    match ms.get? 1 with
    | none =>
      .error "TypeError: Cannot read properties of undefined (reading replace)"
    | some m1 =>
      let amount := jsParseInt (removeCommas m1)
      let amount := if jsIncludes (ms.headD "") "billion"
                    then amount.map (· * 1000) else amount
      .ok (some ("€" ++ jsNumToString amount ++ "M"))

/-- `extractRevenue(content)` from part_001. -/
def extractRevenue (content : String) : Except String (Option String) :=
  match tryRevPattern (revPat1 content.length) content with
  | .error e => .error e
  | .ok (some r) => .ok (some r)
  | .ok none =>
    match tryRevPattern (revPat2 content.length) content with
    | .error e => .error e
    | .ok r => .ok r

/-- The payload a cache-missing, successful `searchWeb` call formats, caches
and returns (the formatted results with the focus annotations). -/
def swPayloadOf (now : Int) (q : String) (o : Opts) (fm : Option String)
    (raw : RawData) : SWPayload :=
  let mode := resolveMode q fm
  let optimized := applySearchFocus (paramsOf q o) mode
  { formatSearchResults raw q now with
      focusMode := some mode
      focusDescription := some (focusDescOf mode)
      optimizedQuery := some optimized.query
      originalQuery := some q }

/-! ## Theorems -/

/-- Claim C3 (code bug): the spec states the employee-count and revenue
extraction heuristics used when building comparable profiles never throw and
return a value or null for every input.  The part_001 implementations call
`content.match(pattern)` with a `g`-flagged regex and read `match[1]`, which
under the `g` flag is the second full match; on a text where a pattern
matches exactly once — here "500 employees" and "€100 million" — `match[1]`
is `undefined` and `.replace` raises a `TypeError`. -/
theorem extraction_single_match_throws :
    extractEmployeeCount "500 employees" =
      .error "TypeError: Cannot read properties of undefined (reading replace)" ∧
    extractRevenue "€100 million" =
      .error "TypeError: Cannot read properties of undefined (reading replace)" := by
  exact ⟨rfl, rfl⟩

/-- Claim C2 (counterexample): on the query "finance market" the
financialSearch and marketAnalysis keyword sets tie at the strictly highest
hit count (1 each, competitorAnalysis 0), yet `detectOptimalFocus` returns
"financialSearch", not the default "companyResearch" demanded by the claim:
ties go to the earliest mode in the fixed iteration order. -/
theorem detect_tie_counterexample :
    detectScore (jsToLower "finance market") finKws = 1 ∧
    detectScore (jsToLower "finance market") mktKws = 1 ∧
    detectScore (jsToLower "finance market") cmpKws = 0 ∧
    detectOptimalFocus "finance market" = "financialSearch" ∧
    detectOptimalFocus "finance market" ≠ "companyResearch" := by
  refine ⟨rfl, rfl, rfl, rfl, ?_⟩
  decide

/-- Claim C5 (counterexample): on the text "bank investment insurance
software" the Finance group has 3 keyword hits and Technology only 1, yet
`extractSector` returns "Technology": the loop returns the first declared
group with at least one hit, not the group with the most hits. -/
theorem extractSector_argmax_counterexample :
    extractSector "bank investment insurance software" = "Technology" ∧
    hitCount "bank investment insurance software"
      ["finance", "financial", "bank", "investment", "insurance"] = 3 ∧
    hitCount "bank investment insurance software"
      ["technology", "tech", "it services", "software", "digital", "consulting"] = 1 := by
  exact ⟨rfl, rfl, rfl⟩

/-- Claim C4 (counterexample): when the first outbound search of the
primary company lookup throws an auth error, `searchCompanyInfo` catches it and
returns a success:false object, and the `searchCompany` request boundary
then answers 404 (the same class as a no-results outcome with suggestions) —
not the 5xx-class response the claim requires. -/
theorem boundary_conflation_counterexample :
    searchCompanyRoute (searchCompanyInfoModel none
      [.error "Erreur obtention token Azure AD: 401 - invalid_client",
       .ok ⟨[]⟩, .ok ⟨[]⟩]) = 404 ∧
    (searchCompanyInfoModel none
      [.error "Erreur obtention token Azure AD: 401 - invalid_client",
       .ok ⟨[]⟩, .ok ⟨[]⟩]).error =
      some "Erreur recherche entreprise: Erreur obtention token Azure AD: 401 - invalid_client" ∧
    searchCompanyRoute (searchCompanyInfoModel none
      [.error "Erreur obtention token Azure AD: 401 - invalid_client",
       .ok ⟨[]⟩, .ok ⟨[]⟩]) ≠ 500 := by
  refine ⟨rfl, rfl, ?_⟩
  decide

/-- Claim C6 (counterexample): with only the sector factor comparable and a
candidate confidence of 0.55, the floored branch returns
`max(40 + 5.5, 40) = 45.5` without rounding — not an integer, refuting "an
integer in [0,100] ... including in the floored branch". -/
theorem similarity_floor_not_integer_counterexample :
    calculateSimilarityScore ⟨some "Tech", none, none, none⟩
      ⟨some "Tech", none, none, some (11/20)⟩ = 91/2 ∧
    ¬ ∃ k : Int, calculateSimilarityScore ⟨some "Tech", none, none, none⟩
      ⟨some "Tech", none, none, some (11/20)⟩ = (k : Rat) := by
  have h : calculateSimilarityScore ⟨some "Tech", none, none, none⟩
      ⟨some "Tech", none, none, some (11/20)⟩ = 91/2 := by
    unfold calculateSimilarityScore sectorScore countryScore sizeScore confVal
    simp [strTruthy, strVal]
    rw [max_eq_left (by norm_num)]
    norm_num
  refine ⟨h, ?_⟩
  rintro ⟨k, hk⟩
  rw [h] at hk
  have hden : ((91 : Rat)/2).den = 1 := by rw [hk]; exact Rat.den_intCast k
  have hden2 : ((91 : Rat)/2).den = 2 := by norm_num [Rat.den]
  omega

/-- Claim C1: (a) for every reference/candidate pair whose sector
(case-insensitively), country, and size_category are present and pairwise
equal and whose candidate confidence is 1.0, `calculateSimilarityScore`
returns exactly 100; (b) for the reference (Technology, France, medium) and
candidate (Technology, France, small, confidence 0.6) it returns exactly 86
(40 sector + 30 country + 10 adjacent size + 6 confidence). -/
theorem similarity_identical_profiles_score
    (r c : Profile) (sr sc co zr : String)
    (hsr : r.sector = some sr) (hsc : c.sector = some sc)
    (hsr0 : sr ≠ "") (hsc0 : sc ≠ "")
    (hsec : jsToLower sr = jsToLower sc)
    (hrc : r.country = some co) (hcc : c.country = some co) (hco0 : co ≠ "")
    (hrz : r.size_category = some zr) (hcz : c.size_category = some zr)
    (hz0 : zr ≠ "")
    (hconf : c.confidence = some 1) :
    calculateSimilarityScore r c = 100 ∧
    calculateSimilarityScore
      ⟨some "Technology", some "France", some "medium", none⟩
      ⟨some "Technology", some "France", some "small", some (6/10)⟩ = 86 := by
  constructor
  · unfold calculateSimilarityScore sectorScore countryScore sizeScore confVal
    rw [hsr, hsc, hrc, hcc, hrz, hcz, hconf]
    simp [strTruthy, strVal, hsr0, hsc0, hco0, hz0, hsec]
  · have hsz : areSimilarSizes "medium" "small" = true := rfl
    unfold calculateSimilarityScore sectorScore countryScore sizeScore confVal
    simp [strTruthy, strVal, hsz]

/-- Witness for C1: a concrete identical pair (sector matching only up to
case) scores 100, and the concrete end-to-end scenario scores 86. -/
theorem similarity_identical_profiles_score_witness :
    calculateSimilarityScore
      ⟨some "Technology", some "France", some "medium", some 1⟩
      ⟨some "technology", some "France", some "medium", some 1⟩ = 100 ∧
    calculateSimilarityScore
      ⟨some "Technology", some "France", some "medium", none⟩
      ⟨some "Technology", some "France", some "small", some (6/10)⟩ = 86 :=
  similarity_identical_profiles_score _ _ "Technology" "technology" "France"
    "medium" rfl rfl (by decide) (by decide) (by decide) rfl rfl (by decide)
    rfl rfl (by decide) rfl

/-- Unfolding of `calculateSimilarityScore` with its lets inlined. -/
theorem calcSim_eq (r c : Profile) :
    calculateSimilarityScore r c =
      if (sectorScore r c).2 + (countryScore r c).2 + (sizeScore r c).2 < 2
      then max ((sectorScore r c).1 + (countryScore r c).1 + (sizeScore r c).1
                 + confVal c.confidence * 10) 40
      else ((min (round ((sectorScore r c).1 + (countryScore r c).1
                 + (sizeScore r c).1 + confVal c.confidence * 10)) 100 : Int) : Rat) := rfl

/-- Claim C6 (amended): for every pair whose candidate confidence is absent
or in [0,1], `calculateSimilarityScore` lies in [0,100]; when at least 2 of
the three categorical factors are comparable the result is a rounded integer
clamped to 100 (denominator 1), but the branch with fewer than 2 comparable
factors returns the unrounded `max(score, 40)`, which need not be an integer
(see the counterexample). -/
theorem similarity_score_bounds (r c : Profile)
    (hconf : c.confidence = none ∨ ∃ q, c.confidence = some q ∧ 0 ≤ q ∧ q ≤ 1) :
    0 ≤ calculateSimilarityScore r c ∧ calculateSimilarityScore r c ≤ 100 ∧
    (2 ≤ (sectorScore r c).2 + (countryScore r c).2 + (sizeScore r c).2 →
      (calculateSimilarityScore r c).den = 1) := by
  have hs1 : 0 ≤ (sectorScore r c).1 ∧ (sectorScore r c).1 ≤ 40 := by
    unfold sectorScore; split_ifs <;> norm_num
  have hs2 : 0 ≤ (countryScore r c).1 ∧ (countryScore r c).1 ≤ 30 := by
    unfold countryScore; split_ifs <;> norm_num
  have hs3 : 0 ≤ (sizeScore r c).1 ∧ (sizeScore r c).1 ≤ 20 := by
    unfold sizeScore; split_ifs <;> norm_num
  have hcv : 0 ≤ confVal c.confidence ∧ confVal c.confidence ≤ 1 := by
    unfold confVal
    rcases hconf with h | ⟨q, hq, h0, h1⟩
    · rw [h]; dsimp only; norm_num
    · rw [hq]; dsimp only; split_ifs
      · norm_num
      · exact ⟨h0, h1⟩
  have hsb : 0 ≤ (sectorScore r c).1 + (countryScore r c).1 + (sizeScore r c).1
        + confVal c.confidence * 10 ∧
      (sectorScore r c).1 + (countryScore r c).1 + (sizeScore r c).1
        + confVal c.confidence * 10 ≤ 100 := by
    constructor <;>
      nlinarith [hs1.1, hs1.2, hs2.1, hs2.2, hs3.1, hs3.2, hcv.1, hcv.2]
  rw [calcSim_eq]
  split_ifs with hf
  · refine ⟨le_trans (by norm_num) (le_max_right _ _),
            max_le hsb.2 (by norm_num), ?_⟩
    intro h2; omega
  · have hr0 : (0 : Int) ≤ round ((sectorScore r c).1 + (countryScore r c).1
        + (sizeScore r c).1 + confVal c.confidence * 10) := by
      rw [round_eq]
      exact Int.le_floor.mpr (by push_cast; linarith [hsb.1])
    refine ⟨?_, ?_, fun _ => Rat.den_intCast _⟩
    · exact_mod_cast le_min hr0 (by norm_num)
    · exact_mod_cast min_le_right _ _

/-- Witness for C6 (amended): the bounds at a concrete pair with confidence
0.55. -/
theorem similarity_score_bounds_witness :
    0 ≤ calculateSimilarityScore ⟨some "Tech", none, none, none⟩
        ⟨some "Tech", none, none, some (11/20)⟩ ∧
      calculateSimilarityScore ⟨some "Tech", none, none, none⟩
        ⟨some "Tech", none, none, some (11/20)⟩ ≤ 100 ∧
      (2 ≤ (sectorScore ⟨some "Tech", none, none, none⟩
              ⟨some "Tech", none, none, some (11/20)⟩).2
         + (countryScore ⟨some "Tech", none, none, none⟩
              ⟨some "Tech", none, none, some (11/20)⟩).2
         + (sizeScore ⟨some "Tech", none, none, none⟩
              ⟨some "Tech", none, none, some (11/20)⟩).2 →
        (calculateSimilarityScore ⟨some "Tech", none, none, none⟩
          ⟨some "Tech", none, none, some (11/20)⟩).den = 1) :=
  similarity_score_bounds _ _ (Or.inr ⟨11/20, rfl, by norm_num, by norm_num⟩)

/-- Claim C2 (amended): `detectOptimalFocus` scores only the three pattern
sets (companyResearch has none); a strictly highest count wins, a tie at the
highest positive count goes to the earliest mode in the fixed iteration
order financialSearch, marketAnalysis, competitorAnalysis (not to the
default), and "companyResearch" is returned exactly when all three counts
are zero. -/
theorem detect_first_max_spec (q : String) :
    detectOptimalFocus q =
      if detectScore (jsToLower q) finKws ≥ detectScore (jsToLower q) mktKws ∧
         detectScore (jsToLower q) finKws ≥ detectScore (jsToLower q) cmpKws then
        (if detectScore (jsToLower q) finKws = 0 then "companyResearch"
         else "financialSearch")
      else if detectScore (jsToLower q) mktKws ≥ detectScore (jsToLower q) cmpKws then
        "marketAnalysis"
      else "competitorAnalysis" := by
  unfold detectOptimalFocus detectPatterns
  simp only [List.foldl, gt_iff_lt]
  set f := detectScore (jsToLower q) finKws with hf
  set m := detectScore (jsToLower q) mktKws with hm
  set c := detectScore (jsToLower q) cmpKws with hc
  by_cases h1 : 0 < f <;> simp only [h1, if_true, if_false, ite_true, ite_false]
  · by_cases h2 : f < m <;> simp only [h2, if_true, if_false, ite_true, ite_false]
    · by_cases h3 : m < c <;>
        simp only [h3, if_true, if_false, ite_true, ite_false] <;>
        split_ifs <;> first | rfl | (exfalso; omega)
    · by_cases h3 : f < c <;>
        simp only [h3, if_true, if_false, ite_true, ite_false] <;>
        split_ifs <;> first | rfl | (exfalso; omega)
  · by_cases h2 : 0 < m <;> simp only [h2, if_true, if_false, ite_true, ite_false]
    · by_cases h3 : m < c <;>
        simp only [h3, if_true, if_false, ite_true, ite_false] <;>
        split_ifs <;> first | rfl | (exfalso; omega)
    · by_cases h3 : 0 < c <;>
        simp only [h3, if_true, if_false, ite_true, ite_false] <;>
        split_ifs <;> first | rfl | (exfalso; omega)

/-- Claim C5 (amended): `extractSector` returns the first taxonomy group in
declaration order with at least one keyword hit, defaulting to "Technology";
the group with the most hits is not considered (see the counterexample). -/
theorem extractSector_first_hit_spec (content : String) :
    extractSector content =
      (((sectorPatterns.find? fun p => decide (1 ≤ hitCount content p.2)).map
        Prod.fst).getD "Technology") := by
  have key : ∀ l : List (String × List String),
      firstSectorHit content l =
        (l.find? fun p => decide (1 ≤ hitCount content p.2)).map Prod.fst := by
    intro l
    induction l with
    | nil => rfl
    | cons p rest ih =>
      by_cases h : 1 ≤ hitCount content p.2
      · simp [firstSectorHit, List.find?, h]
      · simp [firstSectorHit, List.find?, h, ih]
  unfold extractSector
  rw [key]

/-- Claim C4 (amended): a technical failure (auth, timeout, or backend
error) thrown by any searchWeb call of the primary lookup is caught
inside `searchCompanyInfo` and converted into a success:false result whose
error message wraps the thrown one; the `searchCompany` request boundary
then returns the same 404-class response as a genuine no-results outcome —
the 5xx path is reached only by exceptions raised outside
`searchCompanyInfo`. -/
theorem searchCompanyInfo_failure_routes_404
    (pre post : List (Except String SWOut)) (e : String)
    (hpre : ∀ x ∈ pre, ∃ v, x = .ok v) :
    searchCompanyInfoModel none (pre ++ .error e :: post) =
      { success := false, error := some ("Erreur recherche entreprise: " ++ e),
        numSearchResults := 0 } ∧
    searchCompanyRoute (searchCompanyInfoModel none (pre ++ .error e :: post)) =
      404 := by
  have key : ∀ (l : List (Except String SWOut)) (n : Nat),
      (∀ x ∈ l, ∃ v, x = .ok v) →
      searchCompanyInfoGo (l ++ .error e :: post) n =
        { success := false,
          error := some ("Erreur recherche entreprise: " ++ e),
          numSearchResults := 0 } := by
    intro l
    induction l with
    | nil => intro n _; rfl
    | cons x rest ih =>
      intro n hx
      obtain ⟨v, hv⟩ := hx x (List.mem_cons_self _ _)
      subst hv
      exact ih (n + 1) fun y hy => hx y (List.mem_cons_of_mem _ hy)
  have h1 := key pre 0 hpre
  refine ⟨h1, ?_⟩
  unfold searchCompanyInfoModel
  rw [h1]
  rfl

/-- Witness for C4 (amended): the empty-prefix instance with a concrete
timeout error. -/
theorem searchCompanyInfo_failure_routes_404_witness :
    searchCompanyInfoModel none
      (([] : List (Except String SWOut)) ++
        .error "Timeout de 30 secondes dépassé pour la recherche SearXNG" ::
        [.ok ⟨[]⟩, .ok ⟨[]⟩]) =
      { success := false,
        error := some
          "Erreur recherche entreprise: Timeout de 30 secondes dépassé pour la recherche SearXNG",
        numSearchResults := 0 } ∧
    searchCompanyRoute (searchCompanyInfoModel none
      (([] : List (Except String SWOut)) ++
        .error "Timeout de 30 secondes dépassé pour la recherche SearXNG" ::
        [.ok ⟨[]⟩, .ok ⟨[]⟩])) = 404 :=
  searchCompanyInfo_failure_routes_404 [] [.ok ⟨[]⟩, .ok ⟨[]⟩]
    "Timeout de 30 secondes dépassé pour la recherche SearXNG"
    (by intro x hx; cases hx)

/-- Claim C7: `getAccessToken` caches the token with expiry
`now + expires_in*1000 - 60000`; while a cached token exists and `now <
expiresAt` a call returns the cached value with zero network requests and an
unchanged state; once expired, a call performs exactly one token request and
overwrites the cache with the new token and expiry. -/
theorem getAccessToken_caching
    (st : SearchState) (now e expiresIn : Int) (tok tok2 : String)
    (r : Except String (String × Int)) :
    (st.accessToken = some tok → tok ≠ "" → st.tokenExpiry = some e →
      0 ≤ now → now < e → getAccessToken now r st = (.ok tok, st, 0)) ∧
    (st.tokenExpiry = some e → e ≤ now →
      getAccessToken now (.ok (tok2, expiresIn)) st =
        (.ok tok2,
         { st with
             accessToken := some tok2
             tokenExpiry := some (now + expiresIn * 1000 - 60000) },
         1)) := by
  constructor
  · intro h1 h2 h3 h4 h5
    have hv : cachedTokenValid now st = true := by
      unfold cachedTokenValid
      rw [h1, h3]
      have he : e ≠ 0 := by omega
      simp [h2, h5, he]
    unfold getAccessToken
    simp [hv, strVal, h1]
  · intro h3 h6
    have hv : cachedTokenValid now st = false := by
      unfold cachedTokenValid
      rw [h3]
      have hlt : decide (now < e) = false := decide_eq_false (by omega)
      cases hA : st.accessToken
      · rfl
      · simp [hlt]
    unfold getAccessToken
    simp [hv]

/-- Witness for C7: a concrete cached-hit call (network down, still served)
and a concrete post-expiry call performing one fetch and overwriting the
cache. -/
theorem getAccessToken_caching_witness :
    (getAccessToken 5 (.error "down")
      { searxngUrl := some "u", clientId := some "c", clientSecret := some "s",
        tenantId := some "t", tokenUrl := some "k", accessToken := some "tok",
        tokenExpiry := some 1000, cache := [], totalRequests := 0,
        successfulRequests := 0, cachedRequests := 0, errors := [],
        configurationError := none } =
      (.ok "tok",
       { searxngUrl := some "u", clientId := some "c", clientSecret := some "s",
         tenantId := some "t", tokenUrl := some "k", accessToken := some "tok",
         tokenExpiry := some 1000, cache := [], totalRequests := 0,
         successfulRequests := 0, cachedRequests := 0, errors := [],
         configurationError := none }, 0)) ∧
    (getAccessToken 2000 (.ok ("fresh", 3600))
      { searxngUrl := some "u", clientId := some "c", clientSecret := some "s",
        tenantId := some "t", tokenUrl := some "k", accessToken := some "tok",
        tokenExpiry := some 1000, cache := [], totalRequests := 0,
        successfulRequests := 0, cachedRequests := 0, errors := [],
        configurationError := none } =
      (.ok "fresh",
       { searxngUrl := some "u", clientId := some "c", clientSecret := some "s",
         tenantId := some "t", tokenUrl := some "k", accessToken := some "fresh",
         tokenExpiry := some (2000 + 3600 * 1000 - 60000), cache := [],
         totalRequests := 0, successfulRequests := 0, cachedRequests := 0,
         errors := [], configurationError := none }, 1)) :=
  ⟨(getAccessToken_caching _ 5 1000 3600 "tok" "t2" (.error "down")).1
      rfl (by decide) rfl (by norm_num) (by norm_num),
   (getAccessToken_caching _ 2000 1000 3600 "tok" "fresh"
      (.ok ("fresh", 3600))).2 rfl (by norm_num)⟩

/-- Claim C9: a missing (or empty) setting among the five required ones is
recorded once at construction in `configurationError`; any `searchWeb` call
on a state carrying a configuration error returns (does not throw) a
structured result with success false, configured false, and no results,
issues zero token and zero search requests, and leaves the configuration
error in place for subsequent calls. -/
theorem searchWeb_not_configured
    (u cid cs tid tu : Option String) (st : SearchState) (ce : String)
    (now : Int) (q : String) (o : Opts) (fm : Option String)
    (tr : Except String (String × Int)) (sr : Except String RawData)
    (hfal : strTruthy u = false ∨ strTruthy cid = false ∨
      strTruthy cs = false ∨ strTruthy tid = false ∨ strTruthy tu = false)
    (hst : st.configurationError = some ce) :
    (mkSearchService u cid cs tid tu).configurationError =
      some "Variables d\x27environnement Azure AD manquantes" ∧
    searchWeb now q o fm tr sr st =
      (.ok (notConfiguredPayload q ce),
       pushErr { st with totalRequests := st.totalRequests + 1 }
         "Configuration Azure AD incorrecte" q, 0, 0) ∧
    (notConfiguredPayload q ce).success = false ∧
    (notConfiguredPayload q ce).configured = some false ∧
    (notConfiguredPayload q ce).results = [] ∧
    (pushErr { st with totalRequests := st.totalRequests + 1 }
      "Configuration Azure AD incorrecte" q).configurationError = some ce := by
  refine ⟨?_, ?_, rfl, rfl, rfl, ?_⟩
  · unfold mkSearchService
    rcases hfal with h | h | h | h | h <;> simp [h]
  · unfold searchWeb
    simp [hst]
  · simp [pushErr, hst]

/-- Witness for C9: a concrete service built without a backend URL refuses a
concrete call without fetching. -/
theorem searchWeb_not_configured_witness :
    (mkSearchService none (some "c") (some "s") (some "t") (some "k")).configurationError =
      some "Variables d\x27environnement Azure AD manquantes" ∧
    searchWeb 0 "q" ⟨none, none, none, none⟩ none (.ok ("tok", 3600))
      (.ok ⟨[], [], []⟩)
      (mkSearchService none (some "c") (some "s") (some "t") (some "k")) =
      (.ok (notConfiguredPayload "q" "Variables d\x27environnement Azure AD manquantes"),
       pushErr { (mkSearchService none (some "c") (some "s") (some "t") (some "k")) with
                   totalRequests :=
                     (mkSearchService none (some "c") (some "s") (some "t") (some "k")).totalRequests + 1 }
         "Configuration Azure AD incorrecte" "q", 0, 0) ∧
    (notConfiguredPayload "q" "Variables d\x27environnement Azure AD manquantes").success = false ∧
    (notConfiguredPayload "q" "Variables d\x27environnement Azure AD manquantes").configured = some false ∧
    (notConfiguredPayload "q" "Variables d\x27environnement Azure AD manquantes").results = [] ∧
    (pushErr { (mkSearchService none (some "c") (some "s") (some "t") (some "k")) with
                 totalRequests :=
                   (mkSearchService none (some "c") (some "s") (some "t") (some "k")).totalRequests + 1 }
      "Configuration Azure AD incorrecte" "q").configurationError =
      some "Variables d\x27environnement Azure AD manquantes" :=
  searchWeb_not_configured none (some "c") (some "s") (some "t") (some "k") _
    "Variables d\x27environnement Azure AD manquantes" 0 "q"
    ⟨none, none, none, none⟩ none (.ok ("tok", 3600)) (.ok ⟨[], [], []⟩)
    (Or.inl rfl) rfl

/-- The shape of `applySearchFocus` at a registered mode with boost
keywords. -/
theorem applySearchFocus_reg (p : Params) (m : String) (f : FocusMode)
    (hm : focusModesLookup m = some f) (hkw : 0 < f.keywords.length) :
    applySearchFocus p m =
      { query := p.query ++ " " ++ joinSep " " (f.keywords.take 2),
        language := p.language, page := p.page,
        engines := some f.engines, categories := some f.categories } := by
  unfold applySearchFocus
  rw [hm]
  simp [hkw]

/-- Claim C10: for every params object and registered focus mode,
`applySearchFocus` is idempotent on engines and categories (both equal the
fixed configuration of the mode after one or two applications, e.g.
marketAnalysis gives engines "google,yahoo" and categories "general"), but
not on the query: each application strictly lengthens the query by appending
the first two boost keywords of the mode. -/
theorem applySearchFocus_idempotence (p : Params) (m : String) (f : FocusMode)
    (hm : focusModesLookup m = some f) :
    (applySearchFocus (applySearchFocus p m) m).engines =
      (applySearchFocus p m).engines ∧
    (applySearchFocus (applySearchFocus p m) m).categories =
      (applySearchFocus p m).categories ∧
    (applySearchFocus p m).engines = some f.engines ∧
    (applySearchFocus p m).categories = some f.categories ∧
    p.query.length < (applySearchFocus p m).query.length ∧
    (applySearchFocus p m).query.length <
      (applySearchFocus (applySearchFocus p m) m).query.length ∧
    (applySearchFocus p "marketAnalysis").engines = some "google,yahoo" ∧
    (applySearchFocus p "marketAnalysis").categories = some "general" := by
  have hkw : 0 < f.keywords.length := by
    unfold focusModesLookup focusModes at hm
    simp only [List.find?] at hm
    repeat' split at hm
    all_goals (try (simp at hm))
    all_goals (subst hm; decide)
  have hgrow : ∀ s : String,
      s.length < (s ++ " " ++ joinSep " " (f.keywords.take 2)).length := by
    intro s
    rw [String.length_append, String.length_append]
    have h1 : 0 < (" " : String).length := by decide
    omega
  rw [applySearchFocus_reg p m f hm hkw,
      applySearchFocus_reg _ m f hm hkw,
      applySearchFocus_reg p "marketAnalysis"
        { engines := "google,yahoo", categories := "general",
          keywords := ["market", "marché", "sector", "secteur", "industry",
                       "industrie"],
          description := "Analyse de marché et secteur" } rfl (by decide)]
  exact ⟨rfl, rfl, rfl, rfl, hgrow _, hgrow _, rfl, rfl⟩

/-- Witness for C10: a concrete params object under marketAnalysis. -/
theorem applySearchFocus_idempotence_witness :
    (applySearchFocus (applySearchFocus ⟨"capgemini", none, none, none, none⟩
        "marketAnalysis") "marketAnalysis").engines =
      (applySearchFocus ⟨"capgemini", none, none, none, none⟩
        "marketAnalysis").engines ∧
    (applySearchFocus (applySearchFocus ⟨"capgemini", none, none, none, none⟩
        "marketAnalysis") "marketAnalysis").categories =
      (applySearchFocus ⟨"capgemini", none, none, none, none⟩
        "marketAnalysis").categories ∧
    (applySearchFocus ⟨"capgemini", none, none, none, none⟩
        "marketAnalysis").engines = some "google,yahoo" ∧
    (applySearchFocus ⟨"capgemini", none, none, none, none⟩
        "marketAnalysis").categories = some "general" ∧
    ("capgemini" : String).length <
      (applySearchFocus ⟨"capgemini", none, none, none, none⟩
        "marketAnalysis").query.length ∧
    (applySearchFocus ⟨"capgemini", none, none, none, none⟩
        "marketAnalysis").query.length <
      (applySearchFocus (applySearchFocus ⟨"capgemini", none, none, none, none⟩
        "marketAnalysis") "marketAnalysis").query.length ∧
    (applySearchFocus ⟨"capgemini", none, none, none, none⟩
        "marketAnalysis").engines = some "google,yahoo" ∧
    (applySearchFocus ⟨"capgemini", none, none, none, none⟩
        "marketAnalysis").categories = some "general" :=
  applySearchFocus_idempotence ⟨"capgemini", none, none, none, none⟩
    "marketAnalysis"
    { engines := "google,yahoo", categories := "general",
      keywords := ["market", "marché", "sector", "secteur", "industry",
                   "industrie"],
      description := "Analyse de marché et secteur" } rfl

/-- Shape of a `getAccessToken` call whose oracle succeeds: it returns ok
with some token and touches only the token fields. -/
theorem getAccessToken_ok_shape (now : Int) (p : String × Int)
    (st : SearchState) :
    ∃ tok st' tf, getAccessToken now (.ok p) st = (.ok tok, st', tf) ∧
      st'.cache = st.cache ∧ st'.configurationError = st.configurationError ∧
      st'.totalRequests = st.totalRequests ∧
      st'.successfulRequests = st.successfulRequests ∧
      st'.cachedRequests = st.cachedRequests := by
  unfold getAccessToken
  by_cases h : cachedTokenValid now st = true
  · rw [if_pos h]
    exact ⟨_, st, 0, rfl, rfl, rfl, rfl, rfl, rfl⟩
  · rw [if_neg h]
    exact ⟨_, _, 1, rfl, rfl, rfl, rfl, rfl, rfl⟩

/-- Looking up a key right after setting it yields the stored entry while it
is fresh. -/
theorem freshLookup_cacheSet (cch : List (String × Int × SWPayload))
    (k : String) (t t' : Int) (d : SWPayload) :
    freshLookup (cacheSet cch k t d) k t' =
      if t' - t < 300000 then some d else none := by
  unfold freshLookup cacheSet
  simp [List.find?]

/-- A configured `searchWeb` call that misses the cache and succeeds: it
performs exactly one search fetch, stores the formatted payload under the
key of the call, and bumps the success counter. -/
theorem searchWeb_miss_ok (now : Int) (q : String) (o : Opts)
    (fm : Option String) (p : String × Int) (raw : RawData) (st : SearchState)
    (hcfg : st.configurationError = none)
    (hmiss : freshLookup st.cache (swKey q o fm) now = none) :
    ∃ st1 tf,
      searchWeb now q o fm (.ok p) (.ok raw) st =
        (.ok (swPayloadOf now q o fm raw), st1, tf, 1) ∧
      st1.cache = cacheSet st.cache (swKey q o fm) now (swPayloadOf now q o fm raw) ∧
      st1.configurationError = none ∧
      st1.successfulRequests = st.successfulRequests + 1 ∧
      st1.cachedRequests = st.cachedRequests := by
  unfold searchWeb
  set st0 : SearchState := { st with totalRequests := st.totalRequests + 1 }
    with hst0
  obtain ⟨tok, st', tf, hga, hc, hcf, htr, hsr, hcr⟩ :=
    getAccessToken_ok_shape now p st0
  have hcfg0 : st0.configurationError = none := by rw [hst0]; exact hcfg
  have hcache0 : st0.cache = st.cache := by rw [hst0]
  have hsucc0 : st0.successfulRequests = st.successfulRequests := by rw [hst0]
  have hcached0 : st0.cachedRequests = st.cachedRequests := by rw [hst0]
  unfold swKey at hmiss
  simp only at hmiss
  simp only [hcfg0, hcfg, hcache0, hmiss, hga]
  refine ⟨_, tf, rfl, ?_, ?_, ?_, ?_⟩
  · simp only [hc, hcache0]; rfl
  · simp only [hcf, hcfg0]; exact hcfg
  · simp only [hsr, hsucc0]
  · simp only [hcr, hcached0]

/-- A configured `searchWeb` call that hits a fresh cache entry: it performs
no token and no search fetch, returns the stored payload re-annotated with
the mode, and bumps only the cached counter. -/
theorem searchWeb_hit (now : Int) (q : String) (o : Opts) (fm : Option String)
    (tr : Except String (String × Int)) (sr : Except String RawData)
    (st : SearchState) (d : SWPayload)
    (hcfg : st.configurationError = none)
    (hhit : freshLookup st.cache (swKey q o fm) now = some d) :
    searchWeb now q o fm tr sr st =
      (.ok { d with focusMode := some (resolveMode q fm),
                    focusDescription := some (focusDescOf (resolveMode q fm)) },
       { st with totalRequests := st.totalRequests + 1,
                 cachedRequests := st.cachedRequests + 1 }, 0, 0) := by
  unfold searchWeb
  set st0 : SearchState := { st with totalRequests := st.totalRequests + 1 }
    with hst0
  have hcfg0 : st0.configurationError = none := by rw [hst0]; exact hcfg
  have hcache0 : st0.cache = st.cache := by rw [hst0]
  unfold swKey at hhit
  simp only at hhit
  simp only [hcfg0, hcfg, hcache0, hhit]

/-- Claim C8: starting from a configured state whose cache misses the key of
the call, two identical `searchWeb` calls within 5 minutes return the same
payload; only the first performs a search fetch (exactly one) and increments
`successfulRequests`, while the second consults neither oracle, performs
zero fetches, and increments the distinct `cachedRequests` counter
instead. -/
theorem searchWeb_cache_second_call
    (st : SearchState) (q : String) (o : Opts) (fm : Option String)
    (t1 t2 : Int) (p : String × Int) (raw : RawData)
    (tr2 : Except String (String × Int)) (sr2 : Except String RawData)
    (hcfg : st.configurationError = none)
    (hmiss : freshLookup st.cache (swKey q o fm) t1 = none)
    (hfresh : t2 - t1 < 300000) :
    ∃ payload st1 st2 tf1,
      searchWeb t1 q o fm (.ok p) (.ok raw) st = (.ok payload, st1, tf1, 1) ∧
      searchWeb t2 q o fm tr2 sr2 st1 = (.ok payload, st2, 0, 0) ∧
      st1.successfulRequests = st.successfulRequests + 1 ∧
      st1.cachedRequests = st.cachedRequests ∧
      st2.successfulRequests = st1.successfulRequests ∧
      st2.cachedRequests = st1.cachedRequests + 1 := by
  obtain ⟨st1, tf, h1, hcache, hcfg1, hsucc, hcached⟩ :=
    searchWeb_miss_ok t1 q o fm p raw st hcfg hmiss
  have hhit : freshLookup st1.cache (swKey q o fm) t2 =
      some (swPayloadOf t1 q o fm raw) := by
    rw [hcache, freshLookup_cacheSet, if_pos hfresh]
  have h2 := searchWeb_hit t2 q o fm tr2 sr2 st1 (swPayloadOf t1 q o fm raw)
    hcfg1 hhit
  have hpay : ({ swPayloadOf t1 q o fm raw with
                   focusMode := some (resolveMode q fm),
                   focusDescription := some (focusDescOf (resolveMode q fm)) }
               : SWPayload) = swPayloadOf t1 q o fm raw := rfl
  rw [hpay] at h2
  exact ⟨swPayloadOf t1 q o fm raw, st1, _, tf, h1, h2, hsucc, hcached,
         rfl, rfl⟩

/-- Witness for C8: a concrete cold-cache service, a first call at time 0
and an identical second call at time 1000 against dead oracles. -/
theorem searchWeb_cache_second_call_witness :
    ∃ payload st1 st2 tf1,
      searchWeb 0 "acme" ⟨some "fr", some 1, none, none⟩ (some "companyResearch")
        (.ok ("tok", 3600)) (.ok ⟨[], [], []⟩)
        (mkSearchService (some "u") (some "c") (some "s") (some "t") (some "k")) =
        (.ok payload, st1, tf1, 1) ∧
      searchWeb 1000 "acme" ⟨some "fr", some 1, none, none⟩ (some "companyResearch")
        (.error "down") (.error "down") st1 = (.ok payload, st2, 0, 0) ∧
      st1.successfulRequests =
        (mkSearchService (some "u") (some "c") (some "s") (some "t") (some "k")).successfulRequests + 1 ∧
      st1.cachedRequests =
        (mkSearchService (some "u") (some "c") (some "s") (some "t") (some "k")).cachedRequests ∧
      st2.successfulRequests = st1.successfulRequests ∧
      st2.cachedRequests = st1.cachedRequests + 1 :=
  searchWeb_cache_second_call
    (mkSearchService (some "u") (some "c") (some "s") (some "t") (some "k"))
    "acme" ⟨some "fr", some 1, none, none⟩ (some "companyResearch") 0 1000
    ("tok", 3600) ⟨[], [], []⟩ (.error "down") (.error "down")
    rfl rfl (by norm_num)

end CompanyComparables
